import Mathlib

/-!
Shallow embedding of the MapVerse mapping front end (Storage, Routing,
MapModule, Search modules) and verification of its specification claims.

JavaScript numbers that hold coordinates, distances and durations are
modelled as rationals (all literals appearing in the code and claims are
exact decimals); the clock value `Date.now()` is modelled as a natural
number passed in explicitly; the DOM and network are modelled as explicit
state fields and request/response values.
-/

/-- A latitude/longitude pair (`{lat, lng}` objects in the source). -/
structure Coord where
  lat : ℚ
  lng : ℚ
deriving DecidableEq, Repr

/-- `Routing.currentRoute`: the stored route endpoints
`{start: {lat, lng}, end: {lat, lng}}`.  The source field `end` is a Lean
keyword, so it is named `stop` here. -/
structure RouteEndpoints where
  start : Coord
  stop : Coord
deriving DecidableEq, Repr

/-- One turn-by-turn step of an OSRM route.  The source nests
`step.maneuver.type` and `step.maneuver.instruction`; they are flattened
into fields here. -/
structure RouteStep where
  instruction : String
  maneuverType : String
  distance : ℚ
deriving DecidableEq, Repr

/-- One leg of an OSRM route (`route.legs[i]`). -/
structure Leg where
  steps : List RouteStep
deriving DecidableEq, Repr

/-- An OSRM route object: `geometry.coordinates` is a list of GeoJSON
`[lng, lat]` pairs, `distance` is in meters, `duration` in seconds. -/
structure OsrmRoute where
  geometry : List (ℚ × ℚ)
  distance : ℚ
  duration : ℚ
  legs : List Leg
deriving DecidableEq, Repr

/-- The outcome of `fetch` + `response.json()` for a routing request:
either the network call (or JSON parse) errors, or a body
`{code, routes}` is delivered. -/
inductive FetchResult where
  | networkError : FetchResult
  | ok (code : String) (routes : List OsrmRoute) : FetchResult
deriving DecidableEq, Repr

/-- The three upstream failure conditions named by the spec: the network
call errors, the response code is not "Ok", or zero routes are
returned (`data.code !== 'Ok' || !data.routes || data.routes.length === 0`). -/
def FetchResult.isFailure : FetchResult → Bool
  | .networkError => true
  | .ok code routes => code != "Ok" || routes.isEmpty

/-- A routing request as issued by `Routing.getRoute`'s `fetch` of
`https://router.project-osrm.org/route/v1/PROFILE/START;END`. -/
structure RouteRequest where
  profile : String
  start : Coord
  stop : Coord
deriving DecidableEq, Repr

/-- The mutable module-level state of `Routing` and `MapModule` together
with the DOM state the claims mention.  `routeSummary` holds the displayed
distance and duration texts of the `route-summary` element, `toasts` the
`(message, severity)` pairs shown so far. -/
structure AppState where
  currentRoute : Option RouteEndpoints
  travelMode : String
  storedTravelMode : String
  routeLayer : Option (List Coord)
  destinationMarker : Option (Coord × String)
  userLocation : Option Coord
  userMarker : Option Coord
  routeSummary : Option (String × String)
  turnList : Option (List RouteStep)
  directionsPanelVisible : Bool
  travelModePanelVisible : Bool
  toasts : List (String × String)
deriving DecidableEq, Repr

/- ---------------------------------------------------------------------
Storage module (localStorage-backed lists; the stored JSON arrays are
modelled as Lean lists, newest first, exactly as the code keeps them).
--------------------------------------------------------------------- -/

/-- A persisted recent-search entry (`Storage.addRecentSearch` item). -/
structure RecentEntry where
  id : ℕ
  name : String
  lat : ℚ
  lng : ℚ
  address : String
  timestamp : ℕ
deriving DecidableEq, Repr

/-- The `{name, lat, lng, address}` object passed to
`Storage.addRecentSearch` / `Storage.addFavorite`. -/
structure SearchInput where
  name : String
  lat : ℚ
  lng : ℚ
  address : String
deriving DecidableEq, Repr

/-- A persisted favorite entry (`Storage.addFavorite` item). -/
structure FavoriteEntry where
  id : ℕ
  name : String
  lat : ℚ
  lng : ℚ
  address : String
  createdAt : ℕ
deriving DecidableEq, Repr

namespace Storage

/-- `Storage.getRecentSearches(limit)`: `recent.slice(0, limit)` on the
stored list. -/
def getRecentSearches (stored : List RecentEntry) (limit : ℕ) : List RecentEntry :=
  stored.take limit

/-- `Storage.getRecentSearches()` with its default argument `limit = 10`. -/
def getRecentSearchesDefault (stored : List RecentEntry) : List RecentEntry :=
  getRecentSearches stored 10

/-- The entry built inside `Storage.addRecentSearch`: both `id` and
`timestamp` come from the current clock (`Date.now()` /
`new Date().toISOString()`), modelled as the same instant `now`. -/
def mkRecentEntry (search : SearchInput) (now : ℕ) : RecentEntry :=
  { id := now, name := search.name, lat := search.lat, lng := search.lng,
    address := search.address, timestamp := now }

/-- `Storage.addRecentSearch(search)`: read the first 50 stored entries,
drop every entry with the same `(lat, lng)`, unshift the new entry, keep
the first 50, store. -/
def addRecentSearch (stored : List RecentEntry) (search : SearchInput) (now : ℕ) :
    List RecentEntry :=
  let recent := getRecentSearches stored 50
  let recent := recent.filter (fun item => !(item.lat == search.lat && item.lng == search.lng))
  (mkRecentEntry search now :: recent).take 50

/-- The entry built inside `Storage.addFavorite`: `id` is `Date.now()`,
`createdAt` the same instant. -/
def mkFavoriteEntry (location : SearchInput) (now : ℕ) : FavoriteEntry :=
  { id := now, name := location.name, lat := location.lat, lng := location.lng,
    address := location.address, createdAt := now }

/-- `Storage.addFavorite(location)`: unshift a new entry whose id is the
current clock value. -/
def addFavorite (favorites : List FavoriteEntry) (location : SearchInput) (now : ℕ) :
    List FavoriteEntry :=
  mkFavoriteEntry location now :: favorites

/-- `Storage.removeFavorite(id)`: `favorites.filter(fav => fav.id !== id)`. -/
def removeFavorite (favorites : List FavoriteEntry) (id : ℕ) : List FavoriteEntry :=
  favorites.filter (fun fav => fav.id != id)

/-- A sequence of `addFavorite` operations, each with the clock value at
which it runs, applied to an initially empty favorites list. -/
def addFavorites (ops : List (SearchInput × ℕ)) : List FavoriteEntry :=
  ops.foldl (fun favs op => addFavorite favs op.1 op.2) []

end Storage

/- ---------------------------------------------------------------------
MapModule: route drawing and clearing (Leaflet layers modelled as the
`routeLayer` / `destinationMarker` state fields).
--------------------------------------------------------------------- -/

namespace MapModule

/-- `MapModule.drawRoute(coordinates)`: remove any existing polyline and
add a new one with the given `[lat, lng]` path. -/
def drawRoute (s : AppState) (coordinates : List Coord) : AppState :=
  { s with routeLayer := some coordinates }

/-- `MapModule.clearRoute()`: remove the route polyline and the
destination marker, if present. -/
def clearRoute (s : AppState) : AppState :=
  { s with routeLayer := none, destinationMarker := none }

end MapModule

/- ---------------------------------------------------------------------
Routing module.
--------------------------------------------------------------------- -/

namespace Routing

/-- The travel-mode → OSRM-profile table of `Routing.getRoute`:
`profiles[this.travelMode] || 'car'`. -/
def profileFor (travelMode : String) : String :=
  if travelMode == "driving" then "car"
  else if travelMode == "walking" then "foot"
  else if travelMode == "cycling" then "bike"
  else "car"

/-- `Number.prototype.toFixed(1)` for the nonnegative rationals the code
feeds it: the decimal string of the value rounded to tenths. -/
def toFixed1 (q : ℚ) : String :=
  let tenths : ℤ := round (10 * q)
  toString (tenths / 10) ++ "." ++ toString (tenths % 10)

/-- The duration text built by `Routing.displayRouteSummary`:
`hours = Math.floor(duration / 60)`, `minutes = duration % 60`,
`hours > 0 ? hours + "h " + minutes + "min" : minutes + " min"`. -/
def durationText (duration : ℤ) : String :=
  let hours := Int.fdiv duration 60
  let minutes := Int.tmod duration 60
  if hours > 0 then toString hours ++ "h " ++ toString minutes ++ "min"
  else toString minutes ++ " min"

/-- `Routing.displayRoute(route)`: swap the GeoJSON `[lng, lat]` pairs,
draw the polyline, set the summary texts (`(route.distance/1000).toFixed(1)`
km, `Math.ceil(route.duration/60)` minutes), then render
`route.legs[0].steps` and show the directions panel.  Accessing
`route.legs[0]` throws when `legs` is empty; the `Bool` result is `false`
in that case (the exception escapes to `getRoute`'s catch) and the
updates made before the throw remain applied, as in the source. -/
def displayRoute (s : AppState) (route : OsrmRoute) : AppState × Bool :=
  let coordinates := route.geometry.map (fun coord => Coord.mk coord.2 coord.1)
  let s := MapModule.drawRoute s coordinates
  let distance := toFixed1 (route.distance / 1000)
  let duration : ℤ := ⌈route.duration / 60⌉
  let s := { s with routeSummary := some (distance ++ " km", durationText duration) }
  match route.legs with
  | [] => (s, false)
  | leg :: _ =>
    let s := { s with turnList := some leg.steps }
    let s := { s with directionsPanelVisible := true,
                      toasts := s.toasts ++ [("✓ Route calculated", "success")] }
    (s, true)

/-- `Routing.getRoute(startLat, startLng, endLat, endLng)` run to
completion against the upstream answer `response`.  The returned list is
the routing request issued by `fetch` (always exactly one).  Note the
source stores the new endpoints in `this.currentRoute` before the network
call. -/
def getRoute (s : AppState) (startC stopC : Coord) (response : FetchResult) :
    AppState × List RouteRequest :=
  let s := { s with toasts := s.toasts ++ [("🔄 Calculating route...", "info")],
                    currentRoute := some ⟨startC, stopC⟩ }
  let req : RouteRequest := ⟨profileFor s.travelMode, startC, stopC⟩
  let failed := fun (s : AppState) =>
    { s with toasts := s.toasts ++ [("❌ Failed to calculate route", "error")] }
  match response with
  | .networkError => (failed s, [req])
  | .ok code routes =>
    if code == "Ok" then
      match routes with
      | [] => (failed s, [req])
      | route :: _ =>
        let (s, okFlag) := displayRoute s route
        if okFlag then (s, [req]) else (failed s, [req])
    else (failed s, [req])

/-- The click handler installed by `Routing.setupTravelModeButtons` (the
spec's `changeTravelMode(mode)`): set and persist the travel mode, then
recompute the route from the stored `currentRoute` endpoints when one is
active. -/
def changeTravelMode (s : AppState) (mode : String) (response : FetchResult) :
    AppState × List RouteRequest :=
  let s := { s with travelMode := mode, storedTravelMode := mode }
  match s.currentRoute with
  | some r => getRoute s r.start r.stop response
  | none => (s, [])

/-- `Routing.clearRoute()`: null out `currentRoute`, call
`MapModule.clearRoute()`, and hide the directions and travel-mode panels
(`classList.add('hidden')`, a no-op when already hidden). -/
def clearRoute (s : AppState) : AppState :=
  let s := { s with currentRoute := none }
  let s := MapModule.clearRoute s
  { s with directionsPanelVisible := false, travelModePanelVisible := false }

end Routing

namespace MapModule

/-- `MapModule.setDestination(lat, lng, name)` run to completion: replace
the destination marker, and when a user location exists call
`Routing.getRoute(userLocation.lat, userLocation.lng, lat, lng)` (the
upstream answer of that one request is `response`).  The returned list is
the routing requests issued. -/
def setDestination (s : AppState) (lat lng : ℚ) (name : String) (response : FetchResult) :
    AppState × List RouteRequest :=
  let s := { s with destinationMarker := some (⟨lat, lng⟩, name) }
  match s.userLocation with
  | some loc =>
    let (s, reqs) := Routing.getRoute s loc ⟨lat, lng⟩ response
    ({ s with toasts := s.toasts ++ [("📍 Destination set", "success")] }, reqs)
  | none => ({ s with toasts := s.toasts ++ [("📍 Destination set", "success")] }, [])

end MapModule

/- ---------------------------------------------------------------------
Search module: the debounced input handler, the fetch of
`Search.performSearch`, and its resolution, as an event-step system.
--------------------------------------------------------------------- -/

/-- JavaScript's `String.prototype.trim()`: strip whitespace characters
from both ends (written out over the character list; Lean's built-in
`String.trim` computes the same strings but does not reduce inside the
kernel). -/
def jsTrim (s : String) : String :=
  String.mk ((s.data.dropWhile Char.isWhitespace).reverse.dropWhile Char.isWhitespace).reverse

/-- One Nominatim result as stored in `Search.currentResults`. -/
structure SearchResult where
  displayName : String
  lat : ℚ
  lng : ℚ
deriving DecidableEq, Repr

/-- The mutable state of the `Search` module plus its pending debounce
timer and in-flight fetches.  `pendingQuery` is the query captured by the
`setTimeout` callback in `this.searchTimeout` (none when no timer is
pending); `inflight` are the queries whose `fetch` was issued but whose
response has not yet been processed; `issued` records every fetch ever
issued, in order. -/
structure SearchState where
  pendingQuery : Option String
  inflight : List String
  issued : List String
  currentResults : List SearchResult
  resultsVisible : Bool
deriving DecidableEq, Repr

namespace Search

/-- The `input` listener installed by `Search.setupSearchInput`: trim the
value, clear any pending debounce timer, and either hide the results (for
queries shorter than 3 characters) or schedule `performSearch(query)`
300 ms later.  Nothing else is touched: in particular `currentResults` is
left as it is. -/
def handleInput (s : SearchState) (value : String) : SearchState :=
  let query := jsTrim value
  let s := { s with pendingQuery := none }
  if query.length < 3 then
    { s with resultsVisible := false }
  else
    { s with pendingQuery := some query }

/-- The debounce timer firing: `performSearch(query)` starts and runs up
to its `await fetch`, issuing the request for the captured query. -/
def fireTimer (s : SearchState) : SearchState :=
  match s.pendingQuery with
  | none => s
  | some q =>
    { s with pendingQuery := none, inflight := s.inflight ++ [q],
             issued := s.issued ++ [q] }

/-- A fetch for query `q` resolving successfully with `data`: the rest of
`performSearch` runs, i.e. `this.currentResults = data` followed by
`displaySearchResults(data)` — there is no staleness check comparing `q`
against the latest query. -/
def handleResponse (s : SearchState) (q : String) (data : List SearchResult) : SearchState :=
  if q ∈ s.inflight then
    { s with inflight := s.inflight.erase q, currentResults := data,
             resultsVisible := true }
  else s

/-- A fetch for query `q` failing: `performSearch`'s catch block hides
the results; `currentResults` is untouched. -/
def handleFetchError (s : SearchState) (q : String) : SearchState :=
  if q ∈ s.inflight then
    { s with inflight := s.inflight.erase q, resultsVisible := false }
  else s

end Search

/-- The externally visible events driving the `Search` module.  `input v`
is a keystroke leaving the field at value `v`; `fire` is the pending
debounce timer elapsing (an `input` that arrives before `fire` therefore
arrived within 300 ms of the previous one); `respond`/`fail` deliver the
network answer for the fetch tagged with query `q`. -/
inductive SearchEvent where
  | input (value : String)
  | fire
  | respond (q : String) (data : List SearchResult)
  | fail (q : String)
deriving DecidableEq, Repr

/-- One step of the search event system. -/
def searchStep (s : SearchState) : SearchEvent → SearchState
  | .input v => Search.handleInput s v
  | .fire => Search.fireTimer s
  | .respond q data => Search.handleResponse s q data
  | .fail q => Search.handleFetchError s q

/-- Run a list of search events from a state. -/
def searchRun (s : SearchState) (events : List SearchEvent) : SearchState :=
  events.foldl searchStep s

/-- The initial `Search` module state. -/
def searchInit : SearchState :=
  { pendingQuery := none, inflight := [], issued := [], currentResults := [],
    resultsVisible := false }

/- ---------------------------------------------------------------------
MapModule.calculateDistance: the haversine formula over the reals, and
its displayed rounding.
--------------------------------------------------------------------- -/

/-- JavaScript's `Math.atan2(y, x)` over the reals (signed zeros
collapse to `0`). -/
noncomputable def atan2 (y x : ℝ) : ℝ :=
  if 0 < x then Real.arctan (y / x)
  else if x < 0 ∧ 0 ≤ y then Real.arctan (y / x) + Real.pi
  else if x < 0 ∧ y < 0 then Real.arctan (y / x) - Real.pi
  else if x = 0 ∧ 0 < y then Real.pi / 2
  else if x = 0 ∧ y < 0 then -(Real.pi / 2)
  else 0

/-- The displayed form of a distance: either a whole number of meters or
kilometers with one decimal, carried as the integer number of tenths. -/
inductive DistanceDisplay where
  | meters (m : ℤ)
  | kilometers (tenths : ℤ)
deriving DecidableEq, Repr

namespace MapModule

/-- The distance computation of `MapModule.calculateDistance` (in km),
transcribed term by term: `R = 6371`, `dLat`/`dLng` in radians,
`a = sin(dLat/2)*sin(dLat/2) + cos(lat1·π/180)*cos(lat2·π/180)*sin(dLng/2)*sin(dLng/2)`,
`c = 2*atan2(√a, √(1−a))`, result `R*c`. -/
noncomputable def calculateDistanceKm (lat1 lng1 lat2 lng2 : ℝ) : ℝ :=
  let R : ℝ := 6371
  let dLat := (lat2 - lat1) * Real.pi / 180
  let dLng := (lng2 - lng1) * Real.pi / 180
  let a := Real.sin (dLat / 2) * Real.sin (dLat / 2) +
    Real.cos (lat1 * Real.pi / 180) * Real.cos (lat2 * Real.pi / 180) *
    Real.sin (dLng / 2) * Real.sin (dLng / 2)
  let c := 2 * atan2 (Real.sqrt a) (Real.sqrt (1 - a))
  R * c

/-- The displayed value returned by `MapModule.calculateDistance`:
`(distance*1000).toFixed(0)` meters when `distance < 1`, else
`distance.toFixed(1)` kilometers (`toFixed` rounding modelled by `round`,
which agrees on the nonnegative values produced here). -/
noncomputable def calculateDistance (lat1 lng1 lat2 lng2 : ℝ) : DistanceDisplay :=
  let distance := calculateDistanceKm lat1 lng1 lat2 lng2
  if distance < 1 then .meters (round (distance * 1000))
  else .kilometers (round (distance * 10))

end MapModule

/-- The spec's key algorithm, written from its words: "given two
coordinates, Earth radius 6371 km, compute angular differences in
radians, `a = sin²(Δlat/2) + cos(lat1)·cos(lat2)·sin²(Δlng/2)`,
`c = 2·atan2(√a, √(1−a))`, `distance = R·c`."  Stated for comparison with
`MapModule.calculateDistanceKm`. -/
noncomputable def haversineSpec (lat1 lng1 lat2 lng2 : ℝ) : ℝ :=
  let R : ℝ := 6371
  let deg2rad := fun (x : ℝ) => x * Real.pi / 180
  let dLat := deg2rad (lat2 - lat1)
  let dLng := deg2rad (lng2 - lng1)
  let a := Real.sin (dLat / 2) ^ 2 +
    Real.cos (deg2rad lat1) * Real.cos (deg2rad lat2) * Real.sin (dLng / 2) ^ 2
  let c := 2 * atan2 (Real.sqrt a) (Real.sqrt (1 - a))
  R * c

/-- The spec's display rule, written from its words: "Display as meters
if <1 km else kilometers to one decimal."  Stated for comparison with
`MapModule.calculateDistance`. -/
noncomputable def displaySpec (d : ℝ) : DistanceDisplay :=
  if d < 1 then .meters (round (d * 1000)) else .kilometers (round (d * 10))

/- ---------------------------------------------------------------------
Concrete states used by witnesses and counterexamples.
--------------------------------------------------------------------- -/

/-- A fresh application state (no location, no route, default mode). -/
def baseState : AppState :=
  { currentRoute := none, travelMode := "driving", storedTravelMode := "driving",
    routeLayer := none, destinationMarker := none, userLocation := none,
    userMarker := none, routeSummary := none, turnList := none,
    directionsPanelVisible := false, travelModePanelVisible := false, toasts := [] }

/-- A search input at coordinate `(0, 0)`. -/
def searchZero : SearchInput := { name := "Park", lat := 0, lng := 0, address := "" }

/-- Fifty stored recent entries with pairwise distinct coordinates, none
at `(0, 0)`. -/
def stored50 : List RecentEntry :=
  (List.range 50).map (fun i =>
    { id := i, name := "e", lat := (i : ℚ), lng := 1, address := "", timestamp := i })

/-- A search input at coordinate `(1, 2)`. -/
def locA : SearchInput := { name := "A", lat := 1, lng := 2, address := "" }

/-- A search input at coordinate `(3, 4)`. -/
def locB : SearchInput := { name := "B", lat := 3, lng := 4, address := "" }

/-- A state with an active route from `(1, 1)` to `(2, 2)` and its drawn
polyline. -/
def routeActiveState : AppState :=
  { baseState with currentRoute := some ⟨⟨1, 1⟩, ⟨2, 2⟩⟩,
                   routeLayer := some [⟨1, 1⟩, ⟨2, 2⟩],
                   destinationMarker := some (⟨2, 2⟩, "Destination"),
                   directionsPanelVisible := true, travelModePanelVisible := true }

/-- A state with no active route whose user location and marker are set
(the scenario of claim C7's no-op part). -/
def inactiveState : AppState :=
  { baseState with userLocation := some ⟨40, -74⟩, userMarker := some ⟨40, -74⟩ }

/-- The claim C6 scenario: a prior user location of `(51.5007, -0.1246)`
and the default travel mode. -/
def londonState : AppState :=
  { baseState with userLocation := some ⟨51.5007, -0.1246⟩,
                   userMarker := some ⟨51.5007, -0.1246⟩ }

/-- The claim C6 stub response:
`{status:"Ok", routes:[{distance:1000, duration:120, legs:[{steps:[...]}]}]}`. -/
def stubResponse : FetchResult :=
  .ok "Ok" [{ geometry := [(-0.1246, 51.5007), (-0.1278, 51.5074)],
              distance := 1000, duration := 120,
              legs := [⟨[⟨"Head north on A line", "depart", 500⟩]⟩] }]

/-- A search result for the query "Central Park". -/
def resPark : SearchResult := { displayName := "Central Park", lat := 40.78, lng := -73.97 }

/-- A search result for the query "Central". -/
def resA : SearchResult := { displayName := "Central Station", lat := 1, lng := 1 }

/- ---------------------------------------------------------------------
Theorems.
--------------------------------------------------------------------- -/

/-- Claim C10: for every stored recent-searches list and every limit `n`,
reading the recent searches returns at most `n` entries and exactly the
first `n` entries of the stored list (their concatenation with the
dropped suffix restores the stored list), and the default limit is 10. -/
theorem C10_getRecentSearches_prefix_of_stored (stored : List RecentEntry) (n : ℕ) :
    Storage.getRecentSearches stored n = stored.take n ∧
    (Storage.getRecentSearches stored n).length ≤ n ∧
    Storage.getRecentSearches stored n ++ stored.drop n = stored ∧
    Storage.getRecentSearchesDefault stored = stored.take 10 :=
  ⟨rfl, List.length_take_le n stored, List.take_append_drop n stored, rfl⟩

/-- Claim C4: `addRecentSearch` always leaves at most 50 entries; the new
entry (carrying the latest clock value as id and timestamp) sits at the
front; exactly one stored entry carries the inserted coordinate (the prior
occurrence is removed before re-inserting, so adding the same coordinate
twice yields exactly one entry); and when 50 distinct-coordinate entries
are stored, adding a 51st distinct entry keeps the first 50, evicting the
oldest (the stored list becomes the new entry followed by all but the last
old entry). -/
theorem C4_recent_dedup_and_cap (stored : List RecentEntry) (search : SearchInput) (now : ℕ) :
    (Storage.addRecentSearch stored search now).length ≤ 50 ∧
    (Storage.addRecentSearch stored search now).head? =
      some (Storage.mkRecentEntry search now) ∧
    (Storage.addRecentSearch stored search now).countP
      (fun e => e.lat == search.lat && e.lng == search.lng) = 1 ∧
    (stored.length = 50 →
      (∀ e ∈ stored, ¬(e.lat = search.lat ∧ e.lng = search.lng)) →
      Storage.addRecentSearch stored search now =
        Storage.mkRecentEntry search now :: stored.dropLast) := by
  have hrw : Storage.addRecentSearch stored search now =
      Storage.mkRecentEntry search now ::
        (((stored.take 50).filter
          (fun item => !(item.lat == search.lat && item.lng == search.lng))).take 49) := by
    show (Storage.mkRecentEntry search now ::
        ((stored.take 50).filter
          (fun item => !(item.lat == search.lat && item.lng == search.lng)))).take (49 + 1) = _
    exact List.take_succ_cons
  refine ⟨?_, ?_, ?_, ?_⟩
  · exact List.length_take_le 50 _
  · rw [hrw]; exact List.head?_cons
  · rw [hrw, List.countP_cons]
    have hzero : List.countP (fun e => e.lat == search.lat && e.lng == search.lng)
        (((stored.take 50).filter
          (fun item => !(item.lat == search.lat && item.lng == search.lng))).take 49) = 0 := by
      refine List.countP_eq_zero.mpr ?_
      intro a ha
      have haf := List.take_subset 49 _ ha
      have hp := (List.mem_filter.mp haf).2
      simp at hp ⊢
      tauto
    rw [hzero]
    simp [Storage.mkRecentEntry]
  · intro h50 hdist
    have htake : stored.take 50 = stored := List.take_of_length_le (by omega)
    have hfilter : stored.filter
        (fun item => !(item.lat == search.lat && item.lng == search.lng)) = stored := by
      refine List.filter_eq_self.mpr ?_
      intro a ha
      have hd := hdist a ha
      simp at hd ⊢
      tauto
    rw [hrw, htake, hfilter, List.dropLast_eq_take, h50]

/-- Witness for C4: a concrete full store of 50 distinct-coordinate
entries; adding a 51st distinct entry yields the new entry followed by the
49 newest old entries, evicting the oldest. -/
theorem C4_witness :
    stored50.length = 50 ∧
    (∀ e ∈ stored50, ¬(e.lat = searchZero.lat ∧ e.lng = searchZero.lng)) ∧
    Storage.addRecentSearch stored50 searchZero 999 =
      Storage.mkRecentEntry searchZero 999 :: stored50.dropLast := by
  have h1 : stored50.length = 50 := by simp [stored50]
  have h2 : ∀ e ∈ stored50, ¬(e.lat = searchZero.lat ∧ e.lng = searchZero.lng) := by
    intro e he
    simp only [stored50, List.mem_map, List.mem_range] at he
    obtain ⟨i, _, rfl⟩ := he
    simp [searchZero]
  exact ⟨h1, h2, (C4_recent_dedup_and_cap stored50 searchZero 999).2.2.2 h1 h2⟩

/-- Unfolding `Storage.addFavorites`: each operation pushes one entry, so
the resulting list is the reversed sequence of created entries. -/
theorem Storage.addFavorites_eq (ops : List (SearchInput × ℕ)) :
    ∀ favs : List FavoriteEntry,
      ops.foldl (fun favs op => Storage.addFavorite favs op.1 op.2) favs =
        (ops.map (fun op => Storage.mkFavoriteEntry op.1 op.2)).reverse ++ favs := by
  induction ops with
  | nil => intro favs; rfl
  | cons op rest ih =>
    intro favs
    simp only [List.foldl_cons, List.map_cons, List.reverse_cons, ih]
    simp [Storage.addFavorite]

/-- Claim C5 is false as stated: the id assigned by `addFavorite` is the
clock value `Date.now()`, so two favorites added during the same
millisecond receive the same id, and removing by that id deletes both
entries, not exactly the intended one. -/
theorem C5_counterexample :
    ¬ ((Storage.addFavorites [(locA, 100), (locB, 100)]).map (fun f => f.id)).Nodup ∧
    Storage.removeFavorite (Storage.addFavorites [(locA, 100), (locB, 100)]) 100 = [] ∧
    (Storage.addFavorites [(locA, 100), (locB, 100)]).length = 2 := by
  refine ⟨?_, rfl, rfl⟩
  have h : (Storage.addFavorites [(locA, 100), (locB, 100)]).map (fun f => f.id) =
      [100, 100] := rfl
  rw [h]
  decide

/-- Claim C5 (amended): favorite ids are pairwise unique provided the
`addFavorite` operations run at pairwise-distinct clock instants; under
id-uniqueness, `removeFavorite(id)` deletes exactly the intended entry —
the entry with that id is gone and every other entry survives unchanged
(ids are stable: entries are only ever copied whole, never rewritten). -/
theorem C5_favorite_ids_unique_for_distinct_clocks :
    (∀ ops : List (SearchInput × ℕ), (ops.map Prod.snd).Nodup →
      ((Storage.addFavorites ops).map (fun f => f.id)).Nodup) ∧
    (∀ (favs : List FavoriteEntry) (e : FavoriteEntry),
      (favs.map (fun f => f.id)).Nodup → e ∈ favs →
      e ∉ Storage.removeFavorite favs e.id ∧
      ∀ f ∈ favs, f ≠ e → f ∈ Storage.removeFavorite favs e.id) := by
  constructor
  · intro ops hops
    have h : Storage.addFavorites ops =
        (ops.map (fun op => Storage.mkFavoriteEntry op.1 op.2)).reverse ++ [] :=
      Storage.addFavorites_eq ops []
    rw [h, List.append_nil, List.map_reverse, List.nodup_reverse, List.map_map]
    have hcomp : ((fun f : FavoriteEntry => f.id) ∘ fun op : SearchInput × ℕ =>
        Storage.mkFavoriteEntry op.1 op.2) = Prod.snd := by
      funext op
      rfl
    rw [hcomp]
    exact hops
  · intro favs e hnodup he
    constructor
    · intro habs
      have := (List.mem_filter.mp habs).2
      simp at this
    · intro f hf hne
      refine List.mem_filter.mpr ⟨hf, ?_⟩
      have hid : f.id ≠ e.id := by
        intro heq
        exact hne (List.inj_on_of_nodup_map hnodup hf he heq)
      simpa using hid

/-- Witness for C5 (amended): two adds at distinct instants 1 and 2 give
distinct ids, and removing the id of the second entry removes it while
the first entry survives. -/
theorem C5_witness :
    (([(locA, 1), (locB, 2)].map Prod.snd).Nodup ∧
      ((Storage.addFavorites [(locA, 1), (locB, 2)]).map (fun f => f.id)).Nodup) ∧
    (Storage.mkFavoriteEntry locB 2 ∈ Storage.addFavorites [(locA, 1), (locB, 2)] ∧
      Storage.mkFavoriteEntry locB 2 ∉
        Storage.removeFavorite (Storage.addFavorites [(locA, 1), (locB, 2)])
          (Storage.mkFavoriteEntry locB 2).id ∧
      ∀ f ∈ Storage.addFavorites [(locA, 1), (locB, 2)],
        f ≠ Storage.mkFavoriteEntry locB 2 →
        f ∈ Storage.removeFavorite (Storage.addFavorites [(locA, 1), (locB, 2)])
          (Storage.mkFavoriteEntry locB 2).id) := by
  have hsnd : ([(locA, 1), (locB, 2)].map Prod.snd).Nodup := by decide
  have hids : ((Storage.addFavorites [(locA, 1), (locB, 2)]).map (fun f => f.id)).Nodup :=
    C5_favorite_ids_unique_for_distinct_clocks.1 [(locA, 1), (locB, 2)] hsnd
  have hfavs : Storage.addFavorites [(locA, 1), (locB, 2)] =
      [Storage.mkFavoriteEntry locB 2, Storage.mkFavoriteEntry locA 1] := rfl
  have hmem : Storage.mkFavoriteEntry locB 2 ∈ Storage.addFavorites [(locA, 1), (locB, 2)] := by
    rw [hfavs]
    exact List.mem_cons_self _ _
  have hrest := C5_favorite_ids_unique_for_distinct_clocks.2
    (Storage.addFavorites [(locA, 1), (locB, 2)]) (Storage.mkFavoriteEntry locB 2) hids hmem
  exact ⟨⟨hsnd, hids⟩, hmem, hrest.1, hrest.2⟩

/-- `Routing.getRoute` issues exactly one routing request, whose profile
comes from the current travel mode and whose endpoints are the arguments,
whatever the upstream response. -/
theorem Routing.getRoute_requests (s : AppState) (a b : Coord) (resp : FetchResult) :
    (Routing.getRoute s a b resp).2 = [⟨Routing.profileFor s.travelMode, a, b⟩] := by
  cases resp with
  | networkError => rfl
  | ok code routes =>
    simp only [Routing.getRoute]
    split
    · cases routes with
      | nil => rfl
      | cons route rest =>
        simp only
        rcases hd : Routing.displayRoute
          { s with toasts := s.toasts ++ [("🔄 Calculating route...", "info")],
                   currentRoute := some ⟨a, b⟩ } route with ⟨s2, okFlag⟩
        cases okFlag <;> simp [hd]
    · rfl

/-- On any of the three upstream failures, `Routing.getRoute` ends in the
state that differs from the start state only in the two toasts shown and
in `currentRoute`, which now holds the endpoints of the failed request. -/
theorem Routing.getRoute_failure_state (s : AppState) (a b : Coord) (resp : FetchResult)
    (h : resp.isFailure = true) :
    (Routing.getRoute s a b resp).1 =
      { s with currentRoute := some ⟨a, b⟩,
               toasts := s.toasts ++ [("🔄 Calculating route...", "info"),
                                      ("❌ Failed to calculate route", "error")] } := by
  cases resp with
  | networkError =>
    simp only [Routing.getRoute]
    cases s
    simp
  | ok code routes =>
    simp only [FetchResult.isFailure, Bool.or_eq_true, bne_iff_ne, ne_eq,
      List.isEmpty_iff] at h
    simp only [Routing.getRoute]
    by_cases hc : code = "Ok"
    · have hr : routes = [] := h.resolve_left (by simp [hc])
      subst hr
      simp only [hc]
      rw [if_pos (by simp)]
      cases s
      simp
    · rw [if_neg (by simpa using hc)]
      cases s
      simp

/-- Claim C1 is false as stated: `getRoute` stores the new endpoints in
`currentRoute` before the network call, so a failing request from
`(3, 3)` to `(4, 4)` leaves the stored route endpoints changed from the
prior `(1, 1) → (2, 2)` — a partial overwrite of route state on the
error path. -/
theorem C1_counterexample :
    FetchResult.isFailure FetchResult.networkError = true ∧
    routeActiveState.currentRoute = some ⟨⟨1, 1⟩, ⟨2, 2⟩⟩ ∧
    (Routing.getRoute routeActiveState ⟨3, 3⟩ ⟨4, 4⟩
        FetchResult.networkError).1.currentRoute = some ⟨⟨3, 3⟩, ⟨4, 4⟩⟩ ∧
    (Routing.getRoute routeActiveState ⟨3, 3⟩ ⟨4, 4⟩
        FetchResult.networkError).1.currentRoute ≠ routeActiveState.currentRoute := by
  refine ⟨rfl, rfl, rfl, ?_⟩
  show some (RouteEndpoints.mk ⟨3, 3⟩ ⟨4, 4⟩) ≠ routeActiveState.currentRoute
  simp [routeActiveState, baseState]

/-- Claim C1 (amended): on any of the three upstream failures, a failure
toast is reported and the displayed route state — polyline, summary, turn
list, directions panel — and the user location are unchanged, but the
stored route endpoints are overwritten with the failed request's
endpoints before the network call (so the error path does partially
overwrite route state). -/
theorem C1_route_failure_report_and_displayed_state (s : AppState) (a b : Coord)
    (resp : FetchResult) (h : resp.isFailure = true) :
    (Routing.getRoute s a b resp).1.routeLayer = s.routeLayer ∧
    (Routing.getRoute s a b resp).1.routeSummary = s.routeSummary ∧
    (Routing.getRoute s a b resp).1.turnList = s.turnList ∧
    (Routing.getRoute s a b resp).1.directionsPanelVisible = s.directionsPanelVisible ∧
    (Routing.getRoute s a b resp).1.destinationMarker = s.destinationMarker ∧
    (Routing.getRoute s a b resp).1.userLocation = s.userLocation ∧
    (Routing.getRoute s a b resp).1.toasts =
      s.toasts ++ [("🔄 Calculating route...", "info"),
                   ("❌ Failed to calculate route", "error")] ∧
    (Routing.getRoute s a b resp).1.currentRoute = some ⟨a, b⟩ ∧
    (Routing.getRoute s a b resp).2 = [⟨Routing.profileFor s.travelMode, a, b⟩] := by
  have hs := Routing.getRoute_failure_state s a b resp h
  rw [hs]
  exact ⟨rfl, rfl, rfl, rfl, rfl, rfl, rfl, rfl, Routing.getRoute_requests s a b resp⟩

/-- Witness for C1 (amended): the failing network call of the
counterexample scenario leaves the displayed polyline unchanged and
appends the failure toast. -/
theorem C1_witness :
    FetchResult.isFailure FetchResult.networkError = true ∧
    (Routing.getRoute routeActiveState ⟨3, 3⟩ ⟨4, 4⟩
        FetchResult.networkError).1.routeLayer = routeActiveState.routeLayer ∧
    (Routing.getRoute routeActiveState ⟨3, 3⟩ ⟨4, 4⟩
        FetchResult.networkError).1.toasts =
      routeActiveState.toasts ++ [("🔄 Calculating route...", "info"),
                                  ("❌ Failed to calculate route", "error")] :=
  ⟨rfl,
   (C1_route_failure_report_and_displayed_state routeActiveState ⟨3, 3⟩ ⟨4, 4⟩
     FetchResult.networkError rfl).1,
   (C1_route_failure_report_and_displayed_state routeActiveState ⟨3, 3⟩ ⟨4, 4⟩
     FetchResult.networkError rfl).2.2.2.2.2.2.1⟩

/-- Claim C7: `clearRoute` clears the stored route, the polyline and the
destination marker together, never touches the user location or its
marker (nor the travel mode, summary text or toasts), and on a state with
no route and no destination active (and the route panels hidden, as they
are in that situation) it is the identity — a total function, so it
cannot error. -/
theorem C7_clearRoute_frame (s : AppState) :
    (Routing.clearRoute s).userLocation = s.userLocation ∧
    (Routing.clearRoute s).userMarker = s.userMarker ∧
    (Routing.clearRoute s).currentRoute = none ∧
    (Routing.clearRoute s).routeLayer = none ∧
    (Routing.clearRoute s).destinationMarker = none ∧
    (Routing.clearRoute s).travelMode = s.travelMode ∧
    (Routing.clearRoute s).storedTravelMode = s.storedTravelMode ∧
    (Routing.clearRoute s).routeSummary = s.routeSummary ∧
    (Routing.clearRoute s).toasts = s.toasts ∧
    (s.currentRoute = none → s.routeLayer = none → s.destinationMarker = none →
      Routing.clearRoute s =
        { s with directionsPanelVisible := false, travelModePanelVisible := false }) ∧
    (s.currentRoute = none → s.routeLayer = none → s.destinationMarker = none →
      s.directionsPanelVisible = false → s.travelModePanelVisible = false →
      Routing.clearRoute s = s) := by
  refine ⟨rfl, rfl, rfl, rfl, rfl, rfl, rfl, rfl, rfl, ?_, ?_⟩
  · intro h1 h2 h3
    cases s
    simp_all [Routing.clearRoute, MapModule.clearRoute]
  · intro h1 h2 h3 h4 h5
    cases s
    simp_all [Routing.clearRoute, MapModule.clearRoute]

/-- Witness for C7: clearing on a concrete located state with no route
and no destination changes nothing. -/
theorem C7_witness :
    inactiveState.currentRoute = none ∧
    inactiveState.routeLayer = none ∧
    inactiveState.destinationMarker = none ∧
    inactiveState.directionsPanelVisible = false ∧
    inactiveState.travelModePanelVisible = false ∧
    Routing.clearRoute inactiveState = inactiveState ∧
    (Routing.clearRoute inactiveState).userLocation = inactiveState.userLocation :=
  ⟨rfl, rfl, rfl, rfl, rfl,
   (C7_clearRoute_frame inactiveState).2.2.2.2.2.2.2.2.2.2 rfl rfl rfl rfl rfl,
   (C7_clearRoute_frame inactiveState).1⟩

/-- Claim C8: with no active route, `changeTravelMode` issues no routing
request, and doing it twice with the same mode still issues none on
either invocation; with an active route, it recomputes using exactly the
stored endpoints (`currentRoute.start`/`currentRoute.end`), with the
profile of the new mode — not any new input. -/
theorem C8_changeTravelMode_recompute (s : AppState) (mode : String)
    (r1 r2 : FetchResult) :
    (s.currentRoute = none →
      (Routing.changeTravelMode s mode r1).2 = [] ∧
      (Routing.changeTravelMode (Routing.changeTravelMode s mode r1).1 mode r2).2 = []) ∧
    (∀ ep : RouteEndpoints, s.currentRoute = some ep →
      (Routing.changeTravelMode s mode r1).2 =
        [⟨Routing.profileFor mode, ep.start, ep.stop⟩]) := by
  constructor
  · intro h
    have h1 : Routing.changeTravelMode s mode r1 =
        ({ s with travelMode := mode, storedTravelMode := mode }, []) := by
      simp [Routing.changeTravelMode, h]
    refine ⟨by rw [h1], ?_⟩
    rw [h1]
    simp [Routing.changeTravelMode, h]
  · intro ep h
    simp only [Routing.changeTravelMode, h]
    rw [Routing.getRoute_requests]

/-- Witness for C8: no request is issued by two same-mode changes on the
fresh state, and exactly one "foot"-profile request with the stored
endpoints is issued on the route-active state. -/
theorem C8_witness :
    baseState.currentRoute = none ∧
    (Routing.changeTravelMode baseState "walking" FetchResult.networkError).2 = [] ∧
    (Routing.changeTravelMode
      (Routing.changeTravelMode baseState "walking" FetchResult.networkError).1
      "walking" FetchResult.networkError).2 = [] ∧
    routeActiveState.currentRoute = some ⟨⟨1, 1⟩, ⟨2, 2⟩⟩ ∧
    (Routing.changeTravelMode routeActiveState "walking" FetchResult.networkError).2 =
      [⟨Routing.profileFor "walking", ⟨1, 1⟩, ⟨2, 2⟩⟩] := by
  have hpart1 := (C8_changeTravelMode_recompute baseState "walking"
    FetchResult.networkError FetchResult.networkError).1 rfl
  have hpart2 := (C8_changeTravelMode_recompute routeActiveState "walking"
    FetchResult.networkError FetchResult.networkError).2 ⟨⟨1, 1⟩, ⟨2, 2⟩⟩ rfl
  exact ⟨rfl, hpart1.1, hpart1.2, rfl, hpart2⟩

/-- Claim C6: from the prior user location `(51.5007, -0.1246)` and
default travel mode, `setDestination(51.5074, -0.1278, "London")` issues
exactly one routing request, with profile "car", from the stored user
location to the new destination; and on the stub response
`{status:"Ok", routes:[{distance:1000, duration:120, legs:[{steps:[...]}]}]}`
the displayed summary is distance "1.0 km" and duration "2 min". -/
theorem C6_setDestination_end_to_end :
    (MapModule.setDestination londonState 51.5074 (-0.1278) "London" stubResponse).2 =
      [⟨"car", ⟨51.5007, -0.1246⟩, ⟨51.5074, -0.1278⟩⟩] ∧
    (MapModule.setDestination londonState 51.5074 (-0.1278) "London"
        stubResponse).1.routeSummary = some ("1.0 km", "2 min") := by
  constructor
  · have hreq : (MapModule.setDestination londonState 51.5074 (-0.1278) "London"
        stubResponse).2 =
        (Routing.getRoute
          { londonState with destinationMarker := some (⟨51.5074, -0.1278⟩, "London") }
          ⟨51.5007, -0.1246⟩ ⟨51.5074, -0.1278⟩ stubResponse).2 := rfl
    rw [hreq, Routing.getRoute_requests]
    rfl
  · have hdist : Routing.toFixed1 (1000 / 1000) = "1.0" := by
      have h : round (10 * ((1000 : ℚ) / 1000)) = 10 := by norm_num [round_eq]
      simp only [Routing.toFixed1, h]
      decide
    have hdur : (⌈(120 : ℚ) / 60⌉ : ℤ) = 2 := by norm_num
    have hs : (MapModule.setDestination londonState 51.5074 (-0.1278) "London"
        stubResponse).1.routeSummary =
        some (Routing.toFixed1 (1000 / 1000) ++ " km",
              Routing.durationText ⌈(120 : ℚ) / 60⌉) := rfl
    rw [hs, hdist, hdur]
    decide

/-- Claim C2 is false in its general part: two searches whose requests
were both issued (the second arriving after the first's debounce timer
fired) have no staleness tag, so the late response of the superseded
query "Central" overwrites the already-rendered results of the newer
query "Central Park". -/
theorem C2_counterexample :
    (searchRun searchInit [.input "Central", .fire, .input "Central Park", .fire,
        .respond "Central Park" [resPark], .respond "Central" [resA]]).issued =
      ["Central", "Central Park"] ∧
    (searchRun searchInit [.input "Central", .fire, .input "Central Park", .fire,
        .respond "Central Park" [resPark], .respond "Central" [resA]]).currentResults =
      [resA] ∧
    ([resA] : List SearchResult) ≠ [resPark] := by
  refine ⟨rfl, rfl, ?_⟩
  intro h
  have h1 : resA = resPark := by injection h
  have h2 := congrArg SearchResult.displayName h1
  revert h2
  decide

/-- Claim C2 (amended): when the second query arrives within 300 ms of
the first (before the first's debounce timer fires), the first query's
request is never issued at all — the run issues exactly one request, for
the second query — so only the second query's results are rendered and
stored; no staleness tagging protects searches whose requests were
already issued (see the counterexample). -/
theorem C2_debounced_second_query_wins (s : SearchState) (v1 v2 : String)
    (d2 : List SearchResult) (h1 : 3 ≤ (jsTrim v1).length) (h2 : 3 ≤ (jsTrim v2).length) :
    (searchRun s [.input v1, .input v2, .fire, .respond (jsTrim v2) d2]).issued =
      s.issued ++ [jsTrim v2] ∧
    (searchRun s [.input v1, .input v2, .fire, .respond (jsTrim v2) d2]).currentResults =
      d2 ∧
    (searchRun s [.input v1, .input v2, .fire, .respond (jsTrim v2) d2]).resultsVisible =
      true := by
  have e1 : Search.handleInput s v1 = { s with pendingQuery := some (jsTrim v1) } := by
    simp only [Search.handleInput]
    rw [if_neg (by omega)]
  have e2 : Search.handleInput { s with pendingQuery := some (jsTrim v1) } v2 =
      { s with pendingQuery := some (jsTrim v2) } := by
    simp only [Search.handleInput]
    rw [if_neg (by omega)]
  have e3 : Search.fireTimer { s with pendingQuery := some (jsTrim v2) } =
      { s with pendingQuery := none, inflight := s.inflight ++ [jsTrim v2],
               issued := s.issued ++ [jsTrim v2] } := rfl
  have e4 : Search.handleResponse
      { s with pendingQuery := none, inflight := s.inflight ++ [jsTrim v2],
               issued := s.issued ++ [jsTrim v2] } (jsTrim v2) d2 =
      { s with pendingQuery := none,
               inflight := (s.inflight ++ [jsTrim v2]).erase (jsTrim v2),
               issued := s.issued ++ [jsTrim v2],
               currentResults := d2, resultsVisible := true } := by
    simp only [Search.handleResponse]
    rw [if_pos (List.mem_append.mpr (Or.inr (List.mem_singleton.mpr rfl)))]
  have hrun : searchRun s [.input v1, .input v2, .fire, .respond (jsTrim v2) d2] =
      { s with pendingQuery := none,
               inflight := (s.inflight ++ [jsTrim v2]).erase (jsTrim v2),
               issued := s.issued ++ [jsTrim v2],
               currentResults := d2, resultsVisible := true } := by
    simp only [searchRun, List.foldl_cons, List.foldl_nil, searchStep]
    rw [e1, e2, e3, e4]
  rw [hrun]
  exact ⟨rfl, rfl, rfl⟩

/-- Witness for C2 (amended): the concrete "Central" / "Central Park"
scenario with the second keystroke inside the debounce window issues only
the "Central Park" request and renders its results. -/
theorem C2_witness :
    3 ≤ (jsTrim "Central").length ∧ 3 ≤ (jsTrim "Central Park").length ∧
    (searchRun searchInit [.input "Central", .input "Central Park", .fire,
        .respond (jsTrim "Central Park") [resPark]]).issued =
      searchInit.issued ++ [jsTrim "Central Park"] ∧
    (searchRun searchInit [.input "Central", .input "Central Park", .fire,
        .respond (jsTrim "Central Park") [resPark]]).currentResults = [resPark] :=
  ⟨by decide, by decide,
   (C2_debounced_second_query_wins searchInit "Central" "Central Park" [resPark]
     (by decide) (by decide)).1,
   (C2_debounced_second_query_wins searchInit "Central" "Central Park" [resPark]
     (by decide) (by decide)).2.1⟩

/-- Claim C9 is false in its "clears the search results" part: a short
query hides the results dropdown but leaves the stored current results
(and the rendered list items) in place — with a nonempty prior result
list, the state after the short input still holds that list, not the
empty one. -/
theorem C9_counterexample :
    (jsTrim "ab").length < 3 ∧
    (Search.handleInput
        { searchInit with currentResults := [resA], resultsVisible := true }
        "ab").currentResults = [resA] ∧
    ([resA] : List SearchResult) ≠ [] := by
  exact ⟨by decide, rfl, by simp⟩

/-- Claim C9 (amended): for every query of fewer than 3 characters after
trimming, the input handler cancels any pending debounce timer and hides
the results dropdown, scheduling no search — so no network call can
result — while the stored current results (and the issued-request log)
are left unchanged. -/
theorem C9_short_query_hides_and_skips_network (s : SearchState) (v : String)
    (h : (jsTrim v).length < 3) :
    Search.handleInput s v = { s with pendingQuery := none, resultsVisible := false } ∧
    (Search.handleInput s v).issued = s.issued ∧
    (Search.handleInput s v).currentResults = s.currentResults := by
  have e : Search.handleInput s v =
      { s with pendingQuery := none, resultsVisible := false } := by
    simp only [Search.handleInput]
    rw [if_pos h]
  exact ⟨e, by rw [e], by rw [e]⟩

/-- Witness for C9 (amended): the concrete short query "ab" on the
initial state. -/
theorem C9_witness :
    (jsTrim "ab").length < 3 ∧
    Search.handleInput searchInit "ab" =
      { searchInit with pendingQuery := none, resultsVisible := false } :=
  ⟨by decide,
   (C9_short_query_hides_and_skips_network searchInit "ab" (by decide)).1⟩

/-- Claim C3: the code's distance function is exactly the spec's
haversine formula (Earth radius 6371 km, `a = sin²(Δlat/2) +
cos(lat1)·cos(lat2)·sin²(Δlng/2)`, `c = 2·atan2(√a, √(1−a))`,
`distance = R·c`); its displayed output follows the spec's thresholds —
meters rounded to an integer when the distance is strictly below 1 km,
else kilometers rounded to one decimal; and, being a pure function of its
arguments, it returns the same displayed value on every call at the fixed
input pair `(40.730610, -73.935242)`, `(40.758896, -73.985130)`. -/
theorem C3_haversine_formula_and_display (lat1 lng1 lat2 lng2 : ℝ) :
    MapModule.calculateDistanceKm lat1 lng1 lat2 lng2 =
      haversineSpec lat1 lng1 lat2 lng2 ∧
    MapModule.calculateDistance lat1 lng1 lat2 lng2 =
      displaySpec (haversineSpec lat1 lng1 lat2 lng2) ∧
    MapModule.calculateDistance 40.730610 (-73.935242) 40.758896 (-73.985130) =
      MapModule.calculateDistance 40.730610 (-73.935242) 40.758896 (-73.985130) := by
  have hkm : MapModule.calculateDistanceKm lat1 lng1 lat2 lng2 =
      haversineSpec lat1 lng1 lat2 lng2 := by
    simp only [MapModule.calculateDistanceKm, haversineSpec]
    have ha : Real.sin ((lat2 - lat1) * Real.pi / 180 / 2) *
          Real.sin ((lat2 - lat1) * Real.pi / 180 / 2) +
        Real.cos (lat1 * Real.pi / 180) * Real.cos (lat2 * Real.pi / 180) *
          Real.sin ((lng2 - lng1) * Real.pi / 180 / 2) *
          Real.sin ((lng2 - lng1) * Real.pi / 180 / 2) =
        Real.sin ((lat2 - lat1) * Real.pi / 180 / 2) ^ 2 +
        Real.cos (lat1 * Real.pi / 180) * Real.cos (lat2 * Real.pi / 180) *
          Real.sin ((lng2 - lng1) * Real.pi / 180 / 2) ^ 2 := by
      ring
    rw [ha]
  exact ⟨hkm, by simp only [MapModule.calculateDistance, displaySpec, hkm], rfl⟩
